import Mathlib

/-!
# Verification of the smart-treasury scenario orchestration engine

Shallow embedding of the scenario orchestration core of the
`smart-treasury-agent` repository:

* the admission controller (module-level `activeRuns` map and the capacity
  check in `scenariosController.runScenarios`),
* the scenario-run lifecycle driven by `processScenarios` /
  `processStandardScenario`,
* the historical-learning confidence adjuster
  (`HistoricalLearningService.getInsights` /
  `adjustConfidenceBasedOnHistory`),
* the multi-agent debate pipeline (`MultiAgentDebateService.conductDebate` /
  `parseOpinion`).

JavaScript numbers are modelled as rationals (`ℚ`); the relevant branch
arithmetic is exact at every value the theorems touch.  Free-text generator
output is modelled at the regex boundary: a `match` result is represented by
the optional captured value, and the defaulting logic applied to it is
translated verbatim from the source.
-/

namespace SmartTreasury

/-! ## Admission controller

The controller keeps a module-level `activeRuns : Map<string, Date>`; an
admission attempt in `runScenarios` first reads `activeRuns.size` and rejects
when it is `>= MAX_CONCURRENT_RUNS`; several awaited calls later (health
check, data fetches, record creation) it inserts the new run id with the
current time. -/

/-- The `activeRuns` map: in-flight run ids with their admission timestamps.
Run ids are distinct, so a list of pairs models the map. -/
structure AdmissionState where
  activeRuns : List (Nat × Nat)
deriving Repr, DecidableEq

/-- `activeRuns.size`, the occupancy reported in the 429 response. -/
def occupancy (s : AdmissionState) : Nat := s.activeRuns.length

/-- One admission attempt executed without interleaving: the capacity check
(`activeRuns.size >= MAX_CONCURRENT_RUNS` rejects) immediately followed, on
success, by the insertion `activeRuns.set(runId, new Date())`.  Returns
whether admission succeeded together with the new state. -/
def tryAdmit (maxRuns : Nat) (s : AdmissionState) (runId now : Nat) :
    Bool × AdmissionState :=
  if maxRuns ≤ s.activeRuns.length then (false, s)
  else (true, ⟨(runId, now) :: s.activeRuns⟩)

/-- A serialized sequence of admission attempts (each one atomic). -/
def admitSeq (maxRuns : Nat) (s : AdmissionState) (reqs : List (Nat × Nat)) :
    AdmissionState :=
  reqs.foldl (fun st r => (tryAdmit maxRuns st r.1 r.2).2) s

/-- Where an in-flight request stands relative to the admission code:
before the capacity check, past the check (inside the awaited calls that
separate check from insertion), past the insertion, or rejected. -/
inductive ReqPhase
  | start
  | passed
  | inserted
  | rejected
deriving Repr, DecidableEq

/-- One concurrent request to `runScenarios`: its eventual run id and its
current phase. -/
structure ReqThread where
  runId : Nat
  phase : ReqPhase
deriving Repr, DecidableEq

/-- The atomic micro-steps of the admission code as the event loop
interleaves them: the capacity check, and the later `activeRuns.set`. -/
inductive AdmEvent
  | check (tid : Nat)
  | insertKey (tid : Nat) (now : Nat)
deriving Repr, DecidableEq

/-- Global state of the interleaved semantics: the shared `activeRuns` map
and the per-request phases. -/
structure AdmSys where
  adm : AdmissionState
  threads : List ReqThread
deriving Repr, DecidableEq

/-- Replace the phase of thread `tid`. -/
def setPhase (ts : List ReqThread) (tid : Nat) (p : ReqPhase) :
    List ReqThread :=
  ts.mapIdx (fun i t => if i = tid then { t with phase := p } else t)

/-- Execute one micro-step.  A `check` from the start phase reads the shared
occupancy and either rejects (`activeRuns.size >= maxRuns`) or proceeds; an
`insertKey` from the passed phase performs `activeRuns.set(runId, now)`.
Steps out of order are no-ops. -/
def execEvent (maxRuns : Nat) (σ : AdmSys) : AdmEvent → AdmSys
  | .check tid =>
    match σ.threads[tid]? with
    | some t =>
      if t.phase = .start then
        if maxRuns ≤ occupancy σ.adm then
          { σ with threads := setPhase σ.threads tid .rejected }
        else
          { σ with threads := setPhase σ.threads tid .passed }
      else σ
    | none => σ
  | .insertKey tid now =>
    match σ.threads[tid]? with
    | some t =>
      if t.phase = .passed then
        { adm := ⟨(t.runId, now) :: σ.adm.activeRuns⟩,
          threads := setPhase σ.threads tid .inserted }
      else σ
    | none => σ

/-- Run a whole interleaving of admission micro-steps. -/
def execTrace (maxRuns : Nat) (σ : AdmSys) (evs : List AdmEvent) : AdmSys :=
  evs.foldl (execEvent maxRuns) σ

/-- Two fresh concurrent requests against an empty map. -/
def twoReqSys : AdmSys :=
  { adm := ⟨[]⟩, threads := [⟨100, .start⟩, ⟨101, .start⟩] }

/-- The interleaving in which both requests pass the capacity check before
either reaches the insertion. -/
def overlapTrace : List AdmEvent :=
  [.check 0, .check 1, .insertKey 0 5, .insertKey 1 6]

/-! ## Scenario-run lifecycle (`processScenarios` / `processStandardScenario`)

`processScenarios` first persists every record of the batch as `running`,
runs the simulations, then branches on the `ENABLE_AGENTIC_WORKFLOW` /
`ENABLE_MULTI_AGENT_DEBATE` flags.  The model below computes the final
persisted state of each run of the batch as a pure function of the
simulation results and the (external) generator outputs. -/

/-- Scenario-run status values. -/
inductive Status
  | pending
  | running
  | completed
  | failed
deriving Repr, DecidableEq

/-- `transferDetails` of a simulation result. -/
structure TransferDetails where
  amount : ℚ
  fromAccount : String
  toAccount : String
deriving Repr, DecidableEq

/-- The fields of a Python-simulation result that the orchestrator reads. -/
structure SimulationOutput where
  estYieldBps : ℚ
  shortfallRiskPct : ℚ
  transferDetails : Option TransferDetails
  recommendation : String
deriving Repr, DecidableEq

/-- The persisted state of one scenario run, restricted to the fields the
orchestrator writes. -/
structure RunState where
  mode : String
  status : Status
  metrics : Option SimulationOutput
  recommendation : Option String
  error_message : Option String
  completed_at : Option Nat
deriving Repr, DecidableEq

/-- Which AI pipeline the deployment enables (`ENABLE_AGENTIC_WORKFLOW`,
`ENABLE_MULTI_AGENT_DEBATE`); the workflow flag is checked first. -/
structure AiConfig where
  useAgenticWorkflow : Bool
  useMultiAgentDebate : Bool
deriving Repr, DecidableEq

/-- `results.get(mode)` on the map returned by `runParallelSimulations`. -/
def lookupResult (results : List (String × SimulationOutput)) (mode : String) :
    Option SimulationOutput :=
  match results with
  | [] => none
  | (m, r) :: rest => if m = mode then some r else lookupResult rest mode

/-- A run right after the batch-wide update to `status: "running"`. -/
def runningRun (mode : String) : RunState :=
  { mode := mode, status := .running, metrics := none, recommendation := none,
    error_message := none, completed_at := none }

/-- The final update written by `processStandardScenario`: completed, with
the simulation metrics, the generator's recommendation and a completion
time. -/
def standardCompleted (mode : String) (r : SimulationOutput) (rec : String)
    (t : Nat) : RunState :=
  { mode := mode, status := .completed, metrics := some r,
    recommendation := some rec, error_message := none, completed_at := some t }

/-- The update written by the standard branch when `results.get(mode)` is
undefined: failed with `"Simulation failed to produce results"`. -/
def missingResultFailed (mode : String) (t : Nat) : RunState :=
  { mode := mode, status := .failed, metrics := none, recommendation := none,
    error_message := some "Simulation failed to produce results",
    completed_at := some t }

/-- The update written by the balanced-run branch of the workflow and debate
modes: completed, `metrics` taken from `results.get("balanced")` (which may
be undefined), recommendation from the pipeline result. -/
def pipelineBalancedRun (balancedResult : Option SimulationOutput)
    (pipelineRec : String) (t : Nat) : RunState :=
  { mode := "balanced", status := .completed, metrics := balancedResult,
    recommendation := some pipelineRec, error_message := none,
    completed_at := some t }

/-- The per-run update performed by the batch-level `catch` handler: set
status failed, the captured error text and a completion time, leaving the
other persisted fields as they were. -/
def applyBatchFail (msg : String) (t : Nat) (s : RunState) : RunState :=
  { s with
    status := .failed, error_message := some msg,
    completed_at := some t }

/-- The batch-level `catch` handler maps the failure update over *every*
record of the batch (`scenarioRecords.map(...)`). -/
def batchCatch (msg : String) (t : Nat) (runs : List RunState) :
    List RunState :=
  runs.map (applyBatchFail msg t)

/-- Message of the TypeError raised inside `conductDebate` when one of the
three simulation results passed with a non-null assertion is undefined and
its fields are read. -/
def debateTypeErrorMsg : String :=
  "Cannot read properties of undefined"

/-- Final state of every run of a batch under `processScenarios`, per mode,
as a function of the simulation results, the active pipeline flags, the
pipeline's final recommendation (`pipelineRec`), and the per-mode standard
generator recommendation (`claudeRec`).  In the workflow branch the balanced
run is completed from `results.get("balanced")` and every other mode runs the
standard path only when its result is present (otherwise it is skipped and
stays `running`).  In the debate branch `conductDebate` dereferences the
conservative, balanced and aggressive results, so a missing one throws and
the batch-level catch marks every run failed; when all three are present the
branch behaves like the workflow branch.  In the standard branch a missing
result yields the failed update and a present one the completed update. -/
def processScenariosPure (cfg : AiConfig) (modes : List String)
    (results : List (String × SimulationOutput)) (pipelineRec : String)
    (claudeRec : String → String) (t : Nat) : List RunState :=
  if cfg.useAgenticWorkflow then
    modes.map (fun m =>
      if m = "balanced" then
        pipelineBalancedRun (lookupResult results "balanced") pipelineRec t
      else
        match lookupResult results m with
        | some r => standardCompleted m r (claudeRec m) t
        | none => runningRun m)
  else if cfg.useMultiAgentDebate then
    if (lookupResult results "conservative").isSome
        && (lookupResult results "balanced").isSome
        && (lookupResult results "aggressive").isSome then
      modes.map (fun m =>
        if m = "balanced" then
          pipelineBalancedRun (lookupResult results "balanced") pipelineRec t
        else
          match lookupResult results m with
          | some r => standardCompleted m r (claudeRec m) t
          | none => runningRun m)
    else
      batchCatch debateTypeErrorMsg t (modes.map runningRun)
  else
    modes.map (fun m =>
      match lookupResult results m with
      | some r => standardCompleted m r (claudeRec m) t
      | none => missingResultFailed m t)

/-- Deployment with the 4-agent workflow enabled. -/
def wfCfg : AiConfig := ⟨true, false⟩

/-- Deployment with the multi-agent debate enabled. -/
def dbCfg : AiConfig := ⟨false, true⟩

/-- Standard single-agent deployment. -/
def stdCfg : AiConfig := ⟨false, false⟩

/-! ## String helpers

`ratToFixed` mirrors `Number.prototype.toFixed` for the exact decimal values
this development evaluates it at (round half away from zero); `strContains`
is a plain substring test used to state "the reason mentions …". -/

/-- Left-pad a digit string with zeros to length `d`. -/
def padZeros (d : Nat) (s : String) : String :=
  if s.length ≥ d then s
  else String.mk (List.replicate (d - s.length) '0') ++ s

/-- `q.toFixed(d)`: render `q` with exactly `d` decimal digits, rounding half
away from zero. -/
def ratToFixed (d : Nat) (q : ℚ) : String :=
  let scale : ℚ := ((10 : ℚ) ^ d)
  let n : ℤ := if q < 0 then -⌊-q * scale + 1/2⌋ else ⌊q * scale + 1/2⌋
  let sign := if n < 0 then "-" else ""
  let m := n.natAbs
  if d = 0 then sign ++ toString m
  else sign ++ toString (m / 10 ^ d) ++ "." ++ padZeros d (toString (m % 10 ^ d))

/-- Does `pat` start `s`? -/
def startsWithChars : List Char → List Char → Bool
  | [], _ => true
  | _ :: _, [] => false
  | p :: ps, c :: cs => p = c && startsWithChars ps cs

/-- Does `pat` occur anywhere in `s`? -/
def infixChars (pat : List Char) : List Char → Bool
  | [] => startsWithChars pat []
  | c :: cs => startsWithChars pat (c :: cs) || infixChars pat cs

/-- Substring test on strings. -/
def strContains (s pat : String) : Bool :=
  infixChars pat.toList s.toList

/-! ## Historical learning (`HistoricalLearningService`)

`getInsights` aggregates the most recent `recommendation_outcomes` rows into
a `HistoricalInsights` snapshot; a fetch failure is caught and yields a
zeroed snapshot whose `patterns` mention the error.
`adjustConfidenceBasedOnHistory` folds the snapshot into a base confidence
value. -/

/-- One `recommendation_outcomes` row, restricted to the columns
`getInsights` reads.  `Option` models SQL null. -/
structure Outcome where
  was_executed : Bool
  confidence_score : Option ℚ
  predicted_yield_bps : ℚ
  actual_yield_bps : Option ℚ
  predicted_risk_pct : ℚ
  actual_risk_pct : Option ℚ
deriving Repr, DecidableEq

/-- The `accuracyMetrics` component of an insights snapshot. -/
structure AccuracyMetrics where
  avgYieldError : ℚ
  avgRiskError : ℚ
deriving Repr, DecidableEq

/-- The insights snapshot returned by `getInsights`. -/
structure HistoricalInsights where
  totalRecommendations : Nat
  executionRate : ℚ
  avgConfidenceWhenExecuted : ℚ
  avgConfidenceWhenIgnored : ℚ
  accuracyMetrics : AccuracyMetrics
  patterns : List String
deriving Repr, DecidableEq

/-- The zeroed snapshot built in the `catch` branch of `getInsights`. -/
def insightsOnError : HistoricalInsights :=
  { totalRecommendations := 0, executionRate := 0,
    avgConfidenceWhenExecuted := 0, avgConfidenceWhenIgnored := 0,
    accuracyMetrics := ⟨0, 0⟩,
    patterns := ["Error fetching historical data"] }

/-- The zeroed snapshot returned when the query yields no rows. -/
def insightsOnEmpty : HistoricalInsights :=
  { totalRecommendations := 0, executionRate := 0,
    avgConfidenceWhenExecuted := 0, avgConfidenceWhenIgnored := 0,
    accuracyMetrics := ⟨0, 0⟩,
    patterns := ["Not enough historical data yet (0 recommendations)"] }

/-- The pattern-detection block of `getInsights`, as a function of the
aggregates it branches on. -/
def buildPatterns (outcomesLen executedLen withFollowupLen : Nat)
    (avgConfExec avgConfIgn avgYieldError : ℚ) : List String :=
  let p1 : List String :=
    if outcomesLen < 5 then
      ["Building learning dataset (" ++ toString outcomesLen ++
        " recommendations so far)"]
    else []
  let p2 : List String :=
    if 0 < executedLen ∧ avgConfIgn + 1/10 < avgConfExec then
      ["High-confidence recommendations (" ++
        ratToFixed 0 (avgConfExec * 100) ++ "%) are executed more often"]
    else []
  let p3 : List String :=
    if 0 < withFollowupLen ∧ avgYieldError < 15 then
      ["Yield predictions are accurate within " ++
        ratToFixed 1 avgYieldError ++ " bps"]
    else []
  let p4 : List String :=
    if (outcomesLen : ℚ) * (7/10) < (executedLen : ℚ) then
      [ratToFixed 0 (((executedLen : ℚ) / (outcomesLen : ℚ)) * 100) ++
        "% execution rate suggests strong trust in recommendations"]
    else if (executedLen : ℚ) < (outcomesLen : ℚ) * (3/10) then
      ["Low execution rate (" ++
        ratToFixed 0 (((executedLen : ℚ) / (outcomesLen : ℚ)) * 100) ++
        "%) - recommendations may be too aggressive"]
    else []
  let patterns := p1 ++ p2 ++ p3 ++ p4
  if patterns.isEmpty then ["Normal execution patterns observed"] else patterns

/-- `getInsights`: `fetch = none` models a failed read (the `catch` branch);
`some outcomes` the fetched window of at most 100 rows. -/
def getInsights (fetch : Option (List Outcome)) : HistoricalInsights :=
  match fetch with
  | none => insightsOnError
  | some outcomes =>
    if outcomes.isEmpty then insightsOnEmpty
    else
      let executed := outcomes.filter (fun o => o.was_executed)
      let ignored := outcomes.filter (fun o => !o.was_executed)
      let avgConfExec : ℚ :=
        if 0 < executed.length then
          ((executed.map (fun o => o.confidence_score.getD 0)).sum) /
            (executed.length : ℚ)
        else 0
      let avgConfIgn : ℚ :=
        if 0 < ignored.length then
          ((ignored.map (fun o => o.confidence_score.getD 0)).sum) /
            (ignored.length : ℚ)
        else 0
      let withFollowup := outcomes.filter
        (fun o => o.actual_yield_bps.isSome && o.actual_risk_pct.isSome)
      let avgYieldError : ℚ :=
        if 0 < withFollowup.length then
          ((withFollowup.map
            (fun o => |o.predicted_yield_bps - o.actual_yield_bps.getD 0|)).sum) /
            (withFollowup.length : ℚ)
        else 0
      let avgRiskError : ℚ :=
        if 0 < withFollowup.length then
          ((withFollowup.map
            (fun o => |o.predicted_risk_pct - o.actual_risk_pct.getD 0|)).sum) /
            (withFollowup.length : ℚ)
        else 0
      { totalRecommendations := outcomes.length,
        executionRate :=
          if 0 < outcomes.length then
            (executed.length : ℚ) / (outcomes.length : ℚ)
          else 0,
        avgConfidenceWhenExecuted := avgConfExec,
        avgConfidenceWhenIgnored := avgConfIgn,
        accuracyMetrics := ⟨avgYieldError, avgRiskError⟩,
        patterns := buildPatterns outcomes.length executed.length
          withFollowup.length avgConfExec avgConfIgn avgYieldError }

/-- Result of `adjustConfidenceBasedOnHistory`. -/
structure AdjustResult where
  adjusted : ℚ
  reason : String
deriving Repr, DecidableEq

/-- `adjustConfidenceBasedOnHistory`, as a function of the awaited insights
snapshot.  The second argument of the source function
(`_predictedYieldBps`) is unused there and here. -/
def adjustConfidenceBasedOnHistory (insights : HistoricalInsights)
    (baseConfidence : ℚ) (_predictedYieldBps : ℚ) : AdjustResult :=
  if insights.totalRecommendations < 10 then
    { adjusted := baseConfidence,
      reason := "Building historical dataset (" ++
        toString insights.totalRecommendations ++ "/10 recommendations)" }
  else if insights.accuracyMetrics.avgYieldError < 15 then
    let boost : ℚ :=
      min (5/100) ((15 - insights.accuracyMetrics.avgYieldError) / 200)
    { adjusted := min 1 (baseConfidence + boost),
      reason := "Historical accuracy is high (" ++
        ratToFixed 1 insights.accuracyMetrics.avgYieldError ++
        " bps avg error) +" ++ ratToFixed 1 (boost * 100) ++ "% confidence" }
  else if 50 < insights.accuracyMetrics.avgYieldError then
    let penalty : ℚ :=
      min (15/100) ((insights.accuracyMetrics.avgYieldError - 50) / 300)
    { adjusted := max (1/2) (baseConfidence - penalty),
      reason := "Historical accuracy is low (" ++
        ratToFixed 1 insights.accuracyMetrics.avgYieldError ++
        " bps avg error) -" ++ ratToFixed 1 (penalty * 100) ++ "% confidence" }
  else
    { adjusted := baseConfidence,
      reason := "Historical accuracy within normal range (" ++
        ratToFixed 1 insights.accuracyMetrics.avgYieldError ++ " bps)" }

/-- The full adjuster path: fetch the statistics (possibly failing), then
adjust. -/
def adjustFromFetch (fetch : Option (List Outcome)) (baseConfidence : ℚ)
    (predictedYieldBps : ℚ) : AdjustResult :=
  adjustConfidenceBasedOnHistory (getInsights fetch) baseConfidence
    predictedYieldBps

/-! ## Multi-agent debate (`MultiAgentDebateService`)

Generator output is parsed with regexes (`STANCE: …`, `REASONING: …`,
`TRANSFER: …`, `CONFIDENCE: …`).  The model represents each regex match by
its optional captured value (numeric captures already converted) and
translates the defaulting applied to the captures.  JavaScript `||` treats
the empty string as falsy, so a capture that trims to `""` also falls back
to the default. -/

/-- `o?.trim() || d` for an optional string capture. -/
def orElseStr (o : Option String) (d : String) : String :=
  match o with
  | some s => if s.trim = "" then d else s.trim
  | none => d

/-- One agent's opinion in the debate. -/
structure AgentOpinion where
  agent : String
  stance : String
  reasoning : String
  confidence : ℚ
  proposedTransfer : ℚ
deriving Repr, DecidableEq

/-- The four regex captures `parseOpinion` extracts from one stage's
generator text; `none` means the regex did not match. -/
structure OpinionMatches where
  stanceMatch : Option String
  reasoningMatch : Option String
  transferMatch : Option ℚ
  confidenceMatch : Option ℚ
deriving Repr, DecidableEq

/-- A stage whose output failed to parse entirely: no regex matched. -/
def noOpinionMatches : OpinionMatches := ⟨none, none, none, none⟩

/-- `parseOpinion`: build an `AgentOpinion` from the captures, defaulting
stance to `"No clear stance"`, reasoning to `"No reasoning provided"`,
confidence to `0.75` and transfer to `0`. -/
def parseOpinion (m : OpinionMatches) (agentName : String) : AgentOpinion :=
  { agent := agentName,
    stance := orElseStr m.stanceMatch "No clear stance",
    reasoning := orElseStr m.reasoningMatch "No reasoning provided",
    confidence := m.confidenceMatch.getD (75/100),
    proposedTransfer := m.transferMatch.getD 0 }

/-- The neutral placeholder opinion produced when no regex matched. -/
def neutralOpinion (agentName : String) : AgentOpinion :=
  { agent := agentName, stance := "No clear stance",
    reasoning := "No reasoning provided", confidence := 75/100,
    proposedTransfer := 0 }

/-- The four captures of the mediator stage. -/
structure MediatorMatches where
  synthesisMatch : Option String
  recommendationMatch : Option String
  rationaleMatch : Option String
  confidenceMatch : Option ℚ
deriving Repr, DecidableEq

/-- A mediator stage whose output failed to parse entirely. -/
def noMediatorMatches : MediatorMatches := ⟨none, none, none, none⟩

/-- The mediator's final decision. -/
structure MediatorDecision where
  recommendation : String
  rationale : String
  confidence : ℚ
  synthesis : String
deriving Repr, DecidableEq

/-- `getMediatorSynthesis`'s parse step: defaults are the fixed synthesis
and rationale texts, the balanced simulation's own recommendation, and
confidence `0.85`. -/
def getMediatorSynthesis (m : MediatorMatches)
    (balancedMetrics : SimulationOutput) : MediatorDecision :=
  { synthesis := orElseStr m.synthesisMatch "Balanced approach recommended",
    recommendation :=
      orElseStr m.recommendationMatch balancedMetrics.recommendation,
    rationale := orElseStr m.rationaleMatch "Based on balanced simulation metrics",
    confidence := m.confidenceMatch.getD (85/100) }

/-- The structured debate trace. -/
structure DebateRecord where
  conservative : AgentOpinion
  aggressive : AgentOpinion
  mediatorSynthesis : String
deriving Repr, DecidableEq

/-- The value `conductDebate` returns. -/
structure DebateResult where
  finalRecommendation : String
  rationale : String
  confidence : ℚ
  debate : DebateRecord
deriving Repr, DecidableEq

/-- `conductDebate`: stage 1 parses the conservative opinion, stage 2 the
aggressive opinion, stage 3 the mediator synthesis; the result always
carries all three in its `debate` field. -/
def conductDebate (consM aggrM : OpinionMatches) (medM : MediatorMatches)
    (balancedMetrics : SimulationOutput) : DebateResult :=
  let conservativeOpinion := parseOpinion consM "Conservative Agent"
  let aggressiveOpinion := parseOpinion aggrM "Aggressive Agent"
  let finalDecision := getMediatorSynthesis medM balancedMetrics
  { finalRecommendation := finalDecision.recommendation,
    rationale := finalDecision.rationale,
    confidence := finalDecision.confidence,
    debate :=
      { conservative := conservativeOpinion,
        aggressive := aggressiveOpinion,
        mediatorSynthesis := finalDecision.synthesis } }

/-! ## `POST /scenarios/run` response selection (`runScenarios`)

The handler checks, in order: the `activeRuns` capacity (429), the Python
service health (503), the active policy (400), the accounts list (400);
otherwise it queues the batch and answers success. -/

/-- The possible synchronous outcomes of `runScenarios`. -/
inductive RunResponse
  | tooMany (activeRuns : Nat)
  | serviceUnavailable
  | noPolicy
  | noAccounts
  | accepted
deriving Repr, DecidableEq

/-- The guard sequence of `runScenarios`, in source order. -/
def runScenariosResponse (maxRuns activeSize : Nat) (healthy : Bool)
    (hasPolicy : Bool) (accountsLen : Nat) : RunResponse :=
  if maxRuns ≤ activeSize then .tooMany activeSize
  else if !healthy then .serviceUnavailable
  else if !hasPolicy then .noPolicy
  else if accountsLen = 0 then .noAccounts
  else .accepted

/-- HTTP status code of each outcome. -/
def statusCode : RunResponse → Nat
  | .tooMany _ => 429
  | .serviceUnavailable => 503
  | .noPolicy => 400
  | .noAccounts => 400
  | .accepted => 200

/-! ## Sample values used by counterexamples and witnesses -/

/-- A concrete simulation result. -/
def simSample : SimulationOutput :=
  { estYieldBps := 120, shortfallRiskPct := 2,
    transferDetails := some ⟨500000, "Operating", "HighYield"⟩,
    recommendation := "Move 500,000 from Operating to HighYield" }

/-! ## Claims about the admission controller -/

/-- Auxiliary: one atomic admission attempt preserves the capacity bound. -/
theorem occupancy_tryAdmit_le (maxRuns : Nat) (s : AdmissionState)
    (runId now : Nat) (h : occupancy s ≤ maxRuns) :
    occupancy (tryAdmit maxRuns s runId now).2 ≤ maxRuns := by
  unfold tryAdmit
  unfold occupancy at *
  split
  · exact h
  · rename_i h'
    simp only [List.length_cons]
    omega

/-- Auxiliary: a serialized sequence of atomic attempts preserves the
capacity bound. -/
theorem occupancy_admitSeq_le (maxRuns : Nat) (reqs : List (Nat × Nat)) :
    ∀ s : AdmissionState, occupancy s ≤ maxRuns →
      occupancy (admitSeq maxRuns s reqs) ≤ maxRuns := by
  induction reqs with
  | nil => intro s h; exact h
  | cons r rest ih =>
    intro s h
    have hstep := occupancy_tryAdmit_le maxRuns s r.1 r.2 h
    simpa [admitSeq] using ih _ hstep

/-- C1 counterexample: with capacity 1, two interleaved requests both pass
the capacity check before either inserts its key, and the `activeRuns` map
ends with occupancy 2 > 1 — the claimed invariant fails under
interleaving. -/
theorem C1_counterexample :
    occupancy (execTrace 1 twoReqSys overlapTrace).adm = 2 ∧
      ¬ occupancy (execTrace 1 twoReqSys overlapTrace).adm ≤ 1 := by
  decide

/-- C1 (amended): when an admission attempt runs without interleaving —
the capacity check immediately followed by the insertion — the attempt
succeeds iff occupancy is strictly below capacity, a success inserts the
key with the current time, and over any serialized sequence of attempts the
occupancy never exceeds the capacity; under interleaved requests the bound
can be exceeded. -/
theorem C1_serialized_admission (maxRuns : Nat) (s : AdmissionState)
    (runId now : Nat) (s₀ : AdmissionState) (reqs : List (Nat × Nat))
    (h : occupancy s₀ ≤ maxRuns) :
    ((tryAdmit maxRuns s runId now).1 = true ↔ occupancy s < maxRuns)
    ∧ ((tryAdmit maxRuns s runId now).1 = true →
        (tryAdmit maxRuns s runId now).2.activeRuns =
          (runId, now) :: s.activeRuns)
    ∧ occupancy (admitSeq maxRuns s₀ reqs) ≤ maxRuns := by
  refine ⟨?_, ?_, occupancy_admitSeq_le maxRuns reqs s₀ h⟩
  · by_cases hc : maxRuns ≤ s.activeRuns.length
    · simp only [tryAdmit, occupancy, if_pos hc]
      simp only [Bool.false_eq_true, false_iff, not_lt]
      exact hc
    · simp only [tryAdmit, occupancy, if_neg hc]
      simp only [true_iff]
      omega
  · intro hsucc
    by_cases hc : maxRuns ≤ s.activeRuns.length
    · simp [tryAdmit, if_pos hc] at hsucc
    · simp [tryAdmit, if_neg hc]

/-- Witness for `C1_serialized_admission` at capacity 1 and two concrete
requests. -/
theorem C1_serialized_admission_witness :
    occupancy (⟨[]⟩ : AdmissionState) ≤ 1 ∧
      (((tryAdmit 1 ⟨[]⟩ 7 3).1 = true ↔
          occupancy (⟨[]⟩ : AdmissionState) < 1)
        ∧ ((tryAdmit 1 ⟨[]⟩ 7 3).1 = true →
            (tryAdmit 1 ⟨[]⟩ 7 3).2.activeRuns =
              (7, 3) :: (⟨[]⟩ : AdmissionState).activeRuns)
        ∧ occupancy (admitSeq 1 ⟨[]⟩ [(7, 3), (8, 4)]) ≤ 1) :=
  ⟨by decide, C1_serialized_admission 1 ⟨[]⟩ 7 3 ⟨[]⟩ [(7, 3), (8, 4)]
    (by decide)⟩

/-! ## Claims about the `POST /scenarios/run` response -/

/-- C8 counterexample: a request arriving at capacity (5 of 5 slots held)
while the simulation service is unhealthy receives 429, not the 503 the
claim requires. -/
theorem C8_counterexample :
    statusCode (runScenariosResponse 5 5 false true 1) = 429 ∧
      statusCode (runScenariosResponse 5 5 false true 1) ≠ 503 := by
  decide

/-- C8 (amended): the capacity check precedes the health check — the
response is 429 exactly when occupancy has reached capacity (regardless of
provider health), and 503 exactly when occupancy is below capacity and the
health check fails. -/
theorem C8_amended_guard_order (maxRuns activeSize : Nat)
    (healthy hasPolicy : Bool) (accountsLen : Nat) :
    (statusCode (runScenariosResponse maxRuns activeSize healthy hasPolicy
        accountsLen) = 429 ↔ maxRuns ≤ activeSize)
    ∧ (statusCode (runScenariosResponse maxRuns activeSize healthy hasPolicy
        accountsLen) = 503 ↔ activeSize < maxRuns ∧ healthy = false) := by
  by_cases h1 : maxRuns ≤ activeSize
  · simp [runScenariosResponse, statusCode, h1, Nat.not_lt.2 h1]
  · have h1' : activeSize < maxRuns := Nat.not_le.1 h1
    cases healthy with
    | false => simp [runScenariosResponse, statusCode, h1, h1']
    | true =>
      cases hasPolicy with
      | false => simp [runScenariosResponse, statusCode, h1, h1']
      | true =>
        by_cases h4 : accountsLen = 0 <;>
          simp [runScenariosResponse, statusCode, h1, h1', h4]

/-! ## Claims about the debate pipeline -/

/-- Auxiliary: the `||`-defaulting never yields the empty string when the
default is non-empty. -/
theorem orElseStr_ne_empty (o : Option String) (d : String) (hd : d ≠ "") :
    orElseStr o d ≠ "" := by
  cases o with
  | none => exact hd
  | some s =>
    show (if s.trim = "" then d else s.trim) ≠ ""
    split
    · exact hd
    · rename_i hne
      exact hne

/-- C9 (confirmed): the debate trace always carries the three parts — the
conservative opinion, the aggressive opinion and the mediator synthesis —
and a stage whose generator output fails every regex is replaced by the
neutral placeholder (stance "No clear stance", confidence 0.75, transfer 0)
rather than aborting; none of the three parts is ever empty. -/
theorem C9_debate_trace_complete (consM aggrM : OpinionMatches)
    (medM : MediatorMatches) (bm : SimulationOutput) :
    ((conductDebate consM aggrM medM bm).debate.conservative =
        parseOpinion consM "Conservative Agent"
      ∧ (conductDebate consM aggrM medM bm).debate.aggressive =
          parseOpinion aggrM "Aggressive Agent"
      ∧ (conductDebate consM aggrM medM bm).debate.mediatorSynthesis =
          (getMediatorSynthesis medM bm).synthesis)
    ∧ (consM = noOpinionMatches →
        (conductDebate consM aggrM medM bm).debate.conservative =
          neutralOpinion "Conservative Agent")
    ∧ (aggrM = noOpinionMatches →
        (conductDebate consM aggrM medM bm).debate.aggressive =
          neutralOpinion "Aggressive Agent")
    ∧ (medM = noMediatorMatches →
        (conductDebate consM aggrM medM bm).debate.mediatorSynthesis =
          "Balanced approach recommended")
    ∧ (conductDebate consM aggrM medM bm).debate.conservative.stance ≠ ""
    ∧ (conductDebate consM aggrM medM bm).debate.aggressive.stance ≠ ""
    ∧ (conductDebate consM aggrM medM bm).debate.mediatorSynthesis ≠ "" := by
  refine ⟨⟨rfl, rfl, rfl⟩, ?_, ?_, ?_, ?_, ?_, ?_⟩
  · intro hc; subst hc; rfl
  · intro ha; subst ha; rfl
  · intro hm; subst hm; rfl
  · exact orElseStr_ne_empty _ _ (by decide)
  · exact orElseStr_ne_empty _ _ (by decide)
  · exact orElseStr_ne_empty _ _ (by decide)

/-- Witness for `C9_debate_trace_complete`: all three stages fail to parse,
and the trace still holds all three parts, the two opinions being the
neutral placeholder. -/
theorem C9_debate_trace_complete_witness :
    noOpinionMatches = noOpinionMatches ∧
      (conductDebate noOpinionMatches noOpinionMatches noMediatorMatches
          simSample).debate.conservative = neutralOpinion "Conservative Agent"
      ∧ (conductDebate noOpinionMatches noOpinionMatches noMediatorMatches
          simSample).debate.mediatorSynthesis =
            "Balanced approach recommended" :=
  ⟨rfl,
    (C9_debate_trace_complete noOpinionMatches noOpinionMatches
      noMediatorMatches simSample).2.1 rfl,
    (C9_debate_trace_complete noOpinionMatches noOpinionMatches
      noMediatorMatches simSample).2.2.2.1 rfl⟩

/-! ## Claims about the confidence adjuster -/

/-- A recorded outcome whose follow-up shows a 10 bps yield error. -/
def outcomeSample : Outcome :=
  { was_executed := true, confidence_score := some (4/5),
    predicted_yield_bps := 110, actual_yield_bps := some 100,
    predicted_risk_pct := 5, actual_risk_pct := some 5 }

/-- A 12-record window with mean yield error 10 bps. -/
def twelveOutcomes : List Outcome := List.replicate 12 outcomeSample

/-- A recorded outcome whose follow-up shows a 60 bps yield error. -/
def outcomeHighErr : Outcome :=
  { was_executed := true, confidence_score := some (4/5),
    predicted_yield_bps := 160, actual_yield_bps := some 100,
    predicted_risk_pct := 5, actual_risk_pct := some 5 }

/-- A 12-record window with mean yield error 60 bps. -/
def highErrOutcomes : List Outcome := List.replicate 12 outcomeHighErr

/-- Auxiliary: filtering a replicated list by a predicate the element
satisfies keeps the whole list. -/
theorem filter_replicate_pos (n : Nat) (o : Outcome) (p : Outcome → Bool)
    (hp : p o = true) :
    (List.replicate n o).filter p = List.replicate n o := by
  induction n with
  | zero => rfl
  | succ k ih => simp [List.replicate_succ, List.filter_cons, hp, ih]

/-- Auxiliary: filtering a replicated list by a predicate the element fails
gives the empty list. -/
theorem filter_replicate_neg (n : Nat) (o : Outcome) (p : Outcome → Bool)
    (hp : p o = false) :
    (List.replicate n o).filter p = [] := by
  induction n with
  | zero => rfl
  | succ k ih => simp [List.replicate_succ, List.filter_cons, hp, ih]

/-- Auxiliary: on a non-empty window of identical executed outcomes with
follow-up, `getInsights` reports the window size and the element's own
absolute yield error. -/
theorem getInsights_replicate_proj (n : Nat) (hn : n ≠ 0) (o : Outcome)
    (_hx : o.was_executed = true)
    (hf : (o.actual_yield_bps.isSome && o.actual_risk_pct.isSome) = true) :
    (getInsights (some (List.replicate n o))).totalRecommendations = n
    ∧ (getInsights (some (List.replicate n o))).accuracyMetrics.avgYieldError
        = |o.predicted_yield_bps - o.actual_yield_bps.getD 0| := by
  have hne : (List.replicate n o).isEmpty = false := by
    cases n with
    | zero => exact absurd rfl hn
    | succ k => rfl
  have hfilt := filter_replicate_pos n o
    (fun o => o.actual_yield_bps.isSome && o.actual_risk_pct.isSome) hf
  have hpos : 0 < n := Nat.pos_of_ne_zero hn
  constructor
  · simp [getInsights, hne, List.length_replicate]
  · simp only [getInsights, hne, Bool.false_eq_true, if_false]
    simp only [hfilt, List.length_replicate, List.map_replicate,
      List.sum_replicate, hpos, if_pos, nsmul_eq_mul]
    have hcast : ((n : ℚ)) ≠ 0 := Nat.cast_ne_zero.mpr hn
    field_simp

/-- Auxiliary: `(10).toFixed(1) = "10.0"`. -/
theorem ratToFixed_one_ten : ratToFixed 1 (10 : ℚ) = "10.0" := by
  have hfl : ⌊(10 : ℚ) * 10 ^ 1 + 1 / 2⌋ = (100 : ℤ) := by
    rw [Int.floor_eq_iff]
    constructor <;> norm_num
  simp only [ratToFixed]
  rw [if_neg (by norm_num : ¬((10 : ℚ) < 0)), hfl]
  decide

/-- Auxiliary: `(2.5).toFixed(1) = "2.5"`. -/
theorem ratToFixed_one_five_halves : ratToFixed 1 ((5 : ℚ) / 2) = "2.5" := by
  have hfl : ⌊(5 : ℚ) / 2 * 10 ^ 1 + 1 / 2⌋ = (25 : ℤ) := by
    rw [Int.floor_eq_iff]
    constructor <;> norm_num
  simp only [ratToFixed]
  rw [if_neg (by norm_num : ¬((5 : ℚ) / 2 < 0)), hfl]
  decide

/-- Auxiliary: the adjuster on the 12-record window with mean yield error
10 bps and base confidence 0.85. -/
theorem adjust_twelve_concrete :
    adjustFromFetch (some twelveOutcomes) (85 / 100) 0 =
      { adjusted := 7 / 8,
        reason :=
          "Historical accuracy is high (10.0 bps avg error) +2.5% confidence" } := by
  have hp := getInsights_replicate_proj 12 (by decide) outcomeSample rfl rfl
  have ht : (getInsights (some twelveOutcomes)).totalRecommendations = 12 := by
    simpa [twelveOutcomes] using hp.1
  have he : (getInsights (some twelveOutcomes)).accuracyMetrics.avgYieldError
      = 10 := by
    rw [twelveOutcomes, hp.2]
    norm_num [outcomeSample]
  unfold adjustFromFetch adjustConfidenceBasedOnHistory
  rw [ht, he]
  rw [if_neg (by norm_num), if_pos (by norm_num)]
  have hbst : (min ((5 : ℚ) / 100) ((15 - 10) / 200)) = 1 / 40 := by
    rw [min_def]
    norm_num
  have h78 : (min (1 : ℚ) (85 / 100 + 1 / 40)) = 7 / 8 := by
    rw [min_def]
    norm_num
  have h52 : ((1 : ℚ) / 40 * 100) = 5 / 2 := by norm_num
  simp only [hbst, h78, h52, ratToFixed_one_ten, ratToFixed_one_five_halves]
  rfl

/-- C5 (confirmed): the adjuster follows the ordered four-case policy —
fewer than 10 outcomes returns the base unchanged; mean yield error below
15 bps boosts by `min(0.05, (15 - error)/200)` capped at 1; error above
50 bps penalizes by `min(0.15, (error - 50)/300)` floored at 0.5; otherwise
the base is unchanged — and on the 12-record window with mean yield error
10 bps, `Adjust(0.85, _)` lands in (0.85, 0.90] with a positive delta and a
reason mentioning "10". -/
theorem C5_adjust_policy (insights : HistoricalInsights) (base pyb : ℚ) :
    (insights.totalRecommendations < 10 →
      (adjustConfidenceBasedOnHistory insights base pyb).adjusted = base)
    ∧ (10 ≤ insights.totalRecommendations →
        insights.accuracyMetrics.avgYieldError < 15 →
        (adjustConfidenceBasedOnHistory insights base pyb).adjusted =
          min 1 (base + min (5 / 100)
            ((15 - insights.accuracyMetrics.avgYieldError) / 200)))
    ∧ (10 ≤ insights.totalRecommendations →
        50 < insights.accuracyMetrics.avgYieldError →
        (adjustConfidenceBasedOnHistory insights base pyb).adjusted =
          max (1 / 2) (base - min (15 / 100)
            ((insights.accuracyMetrics.avgYieldError - 50) / 300)))
    ∧ (10 ≤ insights.totalRecommendations →
        15 ≤ insights.accuracyMetrics.avgYieldError →
        insights.accuracyMetrics.avgYieldError ≤ 50 →
        (adjustConfidenceBasedOnHistory insights base pyb).adjusted = base)
    ∧ (85 / 100 < (adjustFromFetch (some twelveOutcomes) (85 / 100) 0).adjusted
        ∧ (adjustFromFetch (some twelveOutcomes) (85 / 100) 0).adjusted ≤ 90 / 100
        ∧ strContains
            (adjustFromFetch (some twelveOutcomes) (85 / 100) 0).reason "10" = true
        ∧ 0 < (adjustFromFetch (some twelveOutcomes) (85 / 100) 0).adjusted
            - 85 / 100) := by
  refine ⟨?_, ?_, ?_, ?_, ?_⟩
  · intro h
    simp [adjustConfidenceBasedOnHistory, h]
  · intro h1 h2
    have h1' : ¬ insights.totalRecommendations < 10 := by omega
    simp [adjustConfidenceBasedOnHistory, h1', h2]
  · intro h1 h3
    have h1' : ¬ insights.totalRecommendations < 10 := by omega
    have h2' : ¬ insights.accuracyMetrics.avgYieldError < 15 := by linarith
    simp [adjustConfidenceBasedOnHistory, h1', h2', h3]
  · intro h1 h2 h3
    have h1' : ¬ insights.totalRecommendations < 10 := by omega
    have h2' : ¬ insights.accuracyMetrics.avgYieldError < 15 := not_lt.mpr h2
    have h3' : ¬ 50 < insights.accuracyMetrics.avgYieldError := not_lt.mpr h3
    simp [adjustConfidenceBasedOnHistory, h1', h2', h3']
  · rw [adjust_twelve_concrete]
    exact ⟨by norm_num, by norm_num, by decide, by norm_num⟩

/-- Witness for `C5_adjust_policy`: the small-sample case at a concrete
zeroed snapshot. -/
theorem C5_adjust_policy_witness :
    insightsOnError.totalRecommendations < 10 ∧
      (adjustConfidenceBasedOnHistory insightsOnError (1 / 2) 0).adjusted
        = 1 / 2 :=
  ⟨by decide, (C5_adjust_policy insightsOnError (1 / 2) 0).1 (by decide)⟩

/-- Auxiliary: for a base confidence in [0,1] every branch of the adjuster
stays in [0,1]. -/
theorem adjust_bounds (insights : HistoricalInsights) (base pyb : ℚ)
    (h0 : 0 ≤ base) (h1 : base ≤ 1) :
    0 ≤ (adjustConfidenceBasedOnHistory insights base pyb).adjusted
    ∧ (adjustConfidenceBasedOnHistory insights base pyb).adjusted ≤ 1 := by
  unfold adjustConfidenceBasedOnHistory
  split
  · exact ⟨h0, h1⟩
  · split
    · rename_i hlt
      have hb : (0 : ℚ) ≤ min (5 / 100)
          ((15 - insights.accuracyMetrics.avgYieldError) / 200) :=
        le_min (by norm_num) (by linarith)
      constructor
      · exact le_min (by norm_num) (by linarith)
      · exact min_le_left _ _
    · split
      · rename_i hgt
        have hp : (0 : ℚ) ≤ min (15 / 100)
            ((insights.accuracyMetrics.avgYieldError - 50) / 300) :=
          le_min (by norm_num) (by linarith)
        constructor
        · exact le_trans (by norm_num) (le_max_left _ _)
        · exact max_le (by norm_num) (by linarith)
      · exact ⟨h0, h1⟩

/-- C6 counterexample: a base confidence of 1.2 reaches the small-sample
branch and is returned unchanged — outside [0,1] — so the adjuster does not
always return a value in [0,1]. -/
theorem C6_counterexample :
    (adjustConfidenceBasedOnHistory insightsOnError (6 / 5) 0).adjusted = 6 / 5
    ∧ ¬ (adjustConfidenceBasedOnHistory insightsOnError (6 / 5) 0).adjusted ≤ 1 := by
  constructor
  · rfl
  · show ¬ ((6 : ℚ) / 5 ≤ 1)
    norm_num

/-- C6 (amended): the adjuster is deterministic — identical statistics
snapshots and base confidence give identical results — and whenever the base
confidence lies in [0,1] the adjusted confidence also lies in [0,1]; the
unchanged branches pass a base outside [0,1] through unclamped. -/
theorem C6_amended_deterministic_bounded
    (insights insights2 : HistoricalInsights) (base pyb : ℚ)
    (h2 : insights2 = insights) (h0 : 0 ≤ base) (h1 : base ≤ 1) :
    adjustConfidenceBasedOnHistory insights2 base pyb =
      adjustConfidenceBasedOnHistory insights base pyb
    ∧ 0 ≤ (adjustConfidenceBasedOnHistory insights base pyb).adjusted
    ∧ (adjustConfidenceBasedOnHistory insights base pyb).adjusted ≤ 1 := by
  subst h2
  exact ⟨rfl, (adjust_bounds _ base pyb h0 h1).1, (adjust_bounds _ base pyb h0 h1).2⟩

/-- Witness for `C6_amended_deterministic_bounded` at a concrete snapshot
and base 0.85. -/
theorem C6_amended_deterministic_bounded_witness :
    insightsOnError = insightsOnError ∧ (0 : ℚ) ≤ 17 / 20 ∧ (17 / 20 : ℚ) ≤ 1
    ∧ 0 ≤ (adjustConfidenceBasedOnHistory insightsOnError (17 / 20) 0).adjusted
    ∧ (adjustConfidenceBasedOnHistory insightsOnError (17 / 20) 0).adjusted ≤ 1 :=
  ⟨rfl, by norm_num, by norm_num,
    (C6_amended_deterministic_bounded insightsOnError insightsOnError (17 / 20) 0
      rfl (by norm_num) (by norm_num)).2.1,
    (C6_amended_deterministic_bounded insightsOnError insightsOnError (17 / 20) 0
      rfl (by norm_num) (by norm_num)).2.2⟩

/-- C7 counterexample: when the statistics read fails, the adjuster's reason
is the small-sample message "Building historical dataset (0/10
recommendations)" — it does not state an error fetching history (the error
text lands only in the insights `patterns`). -/
theorem C7_counterexample :
    (adjustFromFetch none (3 / 4) 0).reason =
      "Building historical dataset (0/10 recommendations)"
    ∧ strContains (adjustFromFetch none (3 / 4) 0).reason "fetching" = false := by
  exact ⟨rfl, by decide⟩

/-- C7 (amended): the adjuster is total and a failure to read the historical
statistics degrades to returning the base confidence unchanged, but with the
small-sample reason "Building historical dataset (0/10 recommendations)";
the fetch error is reported only in the insights patterns list. -/
theorem C7_amended_degrade (base pyb : ℚ) :
    (adjustFromFetch none base pyb).adjusted = base
    ∧ (adjustFromFetch none base pyb).reason =
        "Building historical dataset (0/10 recommendations)"
    ∧ (getInsights none).patterns = ["Error fetching historical data"] :=
  ⟨rfl, rfl, rfl⟩

/-- C10 (confirmed): whenever the penalty branch applies (at least 10
outcomes, mean yield error above 50 bps) the adjusted confidence equals
`max(0.5, base - penalty)`, hence is at least 0.5; for a base strictly below
0.5 the branch strictly increases the confidence. -/
theorem C10_penalty_floor (insights : HistoricalInsights) (base pyb : ℚ)
    (hn : 10 ≤ insights.totalRecommendations)
    (he : 50 < insights.accuracyMetrics.avgYieldError) :
    (adjustConfidenceBasedOnHistory insights base pyb).adjusted =
      max (1 / 2) (base - min (15 / 100)
        ((insights.accuracyMetrics.avgYieldError - 50) / 300))
    ∧ 1 / 2 ≤ (adjustConfidenceBasedOnHistory insights base pyb).adjusted
    ∧ (base < 1 / 2 →
        base < (adjustConfidenceBasedOnHistory insights base pyb).adjusted) := by
  have h1' : ¬ insights.totalRecommendations < 10 := by omega
  have h2' : ¬ insights.accuracyMetrics.avgYieldError < 15 := by linarith
  have heq : (adjustConfidenceBasedOnHistory insights base pyb).adjusted =
      max (1 / 2) (base - min (15 / 100)
        ((insights.accuracyMetrics.avgYieldError - 50) / 300)) := by
    simp [adjustConfidenceBasedOnHistory, h1', h2', he]
  refine ⟨heq, ?_, ?_⟩
  · rw [heq]
    exact le_max_left _ _
  · intro hb
    rw [heq]
    calc base < 1 / 2 := hb
      _ ≤ _ := le_max_left _ _

/-- Witness for `C10_penalty_floor` on the 12-record window with mean yield
error 60 bps and base 0.4. -/
theorem C10_penalty_floor_witness :
    10 ≤ (getInsights (some highErrOutcomes)).totalRecommendations
    ∧ 50 < (getInsights (some highErrOutcomes)).accuracyMetrics.avgYieldError
    ∧ 1 / 2 ≤ (adjustConfidenceBasedOnHistory
        (getInsights (some highErrOutcomes)) (2 / 5) 0).adjusted := by
  have hp := getInsights_replicate_proj 12 (by decide) outcomeHighErr rfl rfl
  have ht : (getInsights (some highErrOutcomes)).totalRecommendations = 12 := by
    simpa [highErrOutcomes] using hp.1
  have he : (getInsights (some highErrOutcomes)).accuracyMetrics.avgYieldError
      = 60 := by
    rw [highErrOutcomes, hp.2]
    norm_num [outcomeHighErr]
  refine ⟨by omega, by rw [he]; norm_num, ?_⟩
  exact (C10_penalty_floor (getInsights (some highErrOutcomes)) (2 / 5) 0
    (by omega) (by rw [he]; norm_num)).2.1

/-! ## Claims about the run lifecycle -/

/-- Auxiliary: every final run state produced by `processScenariosPure` has
one of five shapes — standard completion, standard missing-result failure,
skipped (still running), the pipeline-completed balanced run, or the
batch-catch failure — and a pipeline-completed balanced run outside the
workflow branch always has its simulation result present. -/
theorem processScenariosPure_shapes (cfg : AiConfig) (modes : List String)
    (results : List (String × SimulationOutput)) (pipelineRec : String)
    (claudeRec : String → String) (t : Nat) (s : RunState)
    (hs : s ∈ processScenariosPure cfg modes results pipelineRec claudeRec t) :
    (∃ m r, s = standardCompleted m r (claudeRec m) t)
    ∨ (∃ m, s = missingResultFailed m t)
    ∨ (∃ m, s = runningRun m)
    ∨ (s = pipelineBalancedRun (lookupResult results "balanced") pipelineRec t
        ∧ (cfg.useAgenticWorkflow = true
          ∨ (lookupResult results "balanced").isSome = true))
    ∨ (∃ m, s = applyBatchFail debateTypeErrorMsg t (runningRun m)) := by
  unfold processScenariosPure at hs
  by_cases hwf : cfg.useAgenticWorkflow = true
  · rw [if_pos hwf] at hs
    obtain ⟨m, hm, hfm⟩ := List.mem_map.1 hs
    by_cases hb : m = "balanced"
    · subst hb
      rw [if_pos rfl] at hfm
      exact Or.inr (Or.inr (Or.inr (Or.inl ⟨hfm.symm, Or.inl hwf⟩)))
    · rw [if_neg hb] at hfm
      cases hlook : lookupResult results m with
      | some r =>
        rw [hlook] at hfm
        exact Or.inl ⟨m, r, hfm.symm⟩
      | none =>
        rw [hlook] at hfm
        exact Or.inr (Or.inr (Or.inl ⟨m, hfm.symm⟩))
  · rw [if_neg hwf] at hs
    by_cases hdb : cfg.useMultiAgentDebate = true
    · rw [if_pos hdb] at hs
      by_cases hall : ((lookupResult results "conservative").isSome
          && (lookupResult results "balanced").isSome
          && (lookupResult results "aggressive").isSome) = true
      · rw [if_pos hall] at hs
        obtain ⟨m, hm, hfm⟩ := List.mem_map.1 hs
        by_cases hb : m = "balanced"
        · subst hb
          rw [if_pos rfl] at hfm
          have hbal : (lookupResult results "balanced").isSome = true := by
            simp only [Bool.and_eq_true] at hall
            exact hall.1.2
          exact Or.inr (Or.inr (Or.inr (Or.inl ⟨hfm.symm, Or.inr hbal⟩)))
        · rw [if_neg hb] at hfm
          cases hlook : lookupResult results m with
          | some r =>
            rw [hlook] at hfm
            exact Or.inl ⟨m, r, hfm.symm⟩
          | none =>
            rw [hlook] at hfm
            exact Or.inr (Or.inr (Or.inl ⟨m, hfm.symm⟩))
      · rw [if_neg hall] at hs
        obtain ⟨s0, hs0, hfm⟩ := List.mem_map.1 hs
        obtain ⟨m, hm, hfm0⟩ := List.mem_map.1 hs0
        refine Or.inr (Or.inr (Or.inr (Or.inr ⟨m, ?_⟩)))
        rw [← hfm, ← hfm0]
    · rw [if_neg hdb] at hs
      obtain ⟨m, hm, hfm⟩ := List.mem_map.1 hs
      cases hlook : lookupResult results m with
      | some r =>
        rw [hlook] at hfm
        exact Or.inl ⟨m, r, hfm.symm⟩
      | none =>
        rw [hlook] at hfm
        exact Or.inr (Or.inl ⟨m, hfm.symm⟩)

/-- C2 counterexample: in the workflow branch with no balanced simulation
result, the balanced run is persisted as Completed with empty metrics —
refuting "Completed implies metrics non-empty". -/
theorem C2_counterexample :
    ((processScenariosPure wfCfg ["balanced"] [] "Deploy idle cash"
        (fun _ => "baseline") 7).map (fun s => (s.status, s.metrics)))
      = [(.completed, none)] := rfl

/-- C2 (amended): every terminal run carries a completion time, every
Completed run carries a recommendation, and a Completed run can lack
metrics only for the balanced run of the workflow branch when the balanced
simulation result is missing. -/
theorem C2_amended_run_invariants (cfg : AiConfig) (modes : List String)
    (results : List (String × SimulationOutput)) (pipelineRec : String)
    (claudeRec : String → String) (t : Nat) (s : RunState)
    (hs : s ∈ processScenariosPure cfg modes results pipelineRec claudeRec t) :
    ((s.status = .completed ∨ s.status = .failed) → s.completed_at = some t)
    ∧ (s.status = .completed → s.recommendation.isSome = true)
    ∧ ((s.status = .completed ∧ s.metrics = none) →
        cfg.useAgenticWorkflow = true ∧ s.mode = "balanced"
          ∧ lookupResult results "balanced" = none) := by
  rcases processScenariosPure_shapes cfg modes results pipelineRec claudeRec t
      s hs with ⟨m, r, rfl⟩ | ⟨m, rfl⟩ | ⟨m, rfl⟩ | ⟨heq, hside⟩ | ⟨m, rfl⟩
  · refine ⟨fun _ => rfl, fun _ => rfl, fun hc => ?_⟩
    simp [standardCompleted] at hc
  · refine ⟨fun _ => rfl, fun hc => ?_, fun hc => ?_⟩
    · simp [missingResultFailed] at hc
    · simp [missingResultFailed] at hc
  · refine ⟨fun hc => ?_, fun hc => ?_, fun hc => ?_⟩
    · rcases hc with hc | hc <;> simp [runningRun] at hc
    · simp [runningRun] at hc
    · simp [runningRun] at hc
  · subst heq
    refine ⟨fun _ => rfl, fun _ => rfl, fun hc => ?_⟩
    have hmet : lookupResult results "balanced" = none := hc.2
    rcases hside with hwf | hbal
    · exact ⟨hwf, rfl, hmet⟩
    · rw [hmet] at hbal
      simp at hbal
  · refine ⟨fun _ => rfl, fun hc => ?_, fun hc => ?_⟩
    · simp [applyBatchFail, runningRun] at hc
    · simp [applyBatchFail, runningRun] at hc

/-- Witness for `C2_amended_run_invariants`: a standard-branch batch with one
mode whose simulation result is present. -/
theorem C2_amended_run_invariants_witness :
    (standardCompleted "balanced" simSample "rec" 4 ∈
        processScenariosPure stdCfg ["balanced"] [("balanced", simSample)]
          "p" (fun _ => "rec") 4)
    ∧ (((standardCompleted "balanced" simSample "rec" 4).status = .completed
          ∨ (standardCompleted "balanced" simSample "rec" 4).status = .failed) →
        (standardCompleted "balanced" simSample "rec" 4).completed_at = some 4) :=
  ⟨List.mem_singleton.mpr rfl,
    (C2_amended_run_invariants stdCfg ["balanced"] [("balanced", simSample)]
      "p" (fun _ => "rec") 4 (standardCompleted "balanced" simSample "rec" 4)
      (List.mem_singleton.mpr rfl)).1⟩

/-- C3 counterexample: in the workflow branch, the conservative sibling
whose simulation result is missing is skipped and left Running — it does not
transition to Failed as the claim requires. -/
theorem C3_counterexample :
    ((processScenariosPure wfCfg ["conservative", "balanced", "aggressive"]
        [("balanced", simSample), ("aggressive", simSample)] "p"
        (fun _ => "b") 3).map (fun s => (s.mode, s.status)))
      = [("conservative", .running), ("balanced", .completed),
          ("aggressive", .completed)] := rfl

/-- C3 (amended): how a mode with no simulation result ends depends on the
branch.  Standard branch: the run transitions directly to Failed with error
message "Simulation failed to produce results", a completion time and no
recommendation (no pipeline is invoked), and every sibling whose result is
present still reaches its standard completion.  Workflow branch: a
non-balanced sibling with a missing result is skipped entirely and remains
Running, never reaching a terminal state.  Debate branch: a missing
conservative, balanced or aggressive result makes `conductDebate` throw and
the batch-level catch marks every run of the batch Failed; only when all
three named results are present is a further non-balanced sibling with a
missing result skipped and left Running. -/
theorem C3_amended_missing_result (modes : List String)
    (results : List (String × SimulationOutput)) (pipelineRec : String)
    (claudeRec : String → String) (t : Nat) (m : String)
    (hm : m ∈ modes) (hnone : lookupResult results m = none) :
    (missingResultFailed m t ∈
        processScenariosPure stdCfg modes results pipelineRec claudeRec t
      ∧ (missingResultFailed m t).status = .failed
      ∧ (missingResultFailed m t).error_message =
          some "Simulation failed to produce results"
      ∧ (missingResultFailed m t).completed_at = some t
      ∧ (missingResultFailed m t).recommendation = none)
    ∧ (∀ m' r', m' ∈ modes → lookupResult results m' = some r' →
        standardCompleted m' r' (claudeRec m') t ∈
          processScenariosPure stdCfg modes results pipelineRec claudeRec t)
    ∧ (m ≠ "balanced" →
        runningRun m ∈
            processScenariosPure wfCfg modes results pipelineRec claudeRec t
          ∧ (runningRun m).status = .running
          ∧ (runningRun m).completed_at = none)
    ∧ (m = "conservative" ∨ m = "balanced" ∨ m = "aggressive" →
        ∀ s ∈ processScenariosPure dbCfg modes results pipelineRec claudeRec t,
          s.status = .failed ∧ s.completed_at = some t)
    ∧ ((lookupResult results "conservative").isSome = true →
        (lookupResult results "balanced").isSome = true →
        (lookupResult results "aggressive").isSome = true →
        m ≠ "balanced" →
        runningRun m ∈
          processScenariosPure dbCfg modes results pipelineRec claudeRec t) := by
  have hform : processScenariosPure stdCfg modes results pipelineRec claudeRec t
      = modes.map (fun m => match lookupResult results m with
          | some r => standardCompleted m r (claudeRec m) t
          | none => missingResultFailed m t) := rfl
  refine ⟨⟨?_, rfl, rfl, rfl, rfl⟩, ?_, ?_, ?_, ?_⟩
  · rw [hform]
    have hval : (fun m => match lookupResult results m with
        | some r => standardCompleted m r (claudeRec m) t
        | none => missingResultFailed m t) m = missingResultFailed m t := by
      show (match lookupResult results m with
        | some r => standardCompleted m r (claudeRec m) t
        | none => missingResultFailed m t) = missingResultFailed m t
      rw [hnone]
    rw [← hval]
    exact List.mem_map_of_mem _ hm
  · intro m' r' hm' hsome
    rw [hform]
    have hval : (fun m => match lookupResult results m with
        | some r => standardCompleted m r (claudeRec m) t
        | none => missingResultFailed m t) m' =
          standardCompleted m' r' (claudeRec m') t := by
      show (match lookupResult results m' with
        | some r => standardCompleted m' r (claudeRec m') t
        | none => missingResultFailed m' t) =
          standardCompleted m' r' (claudeRec m') t
      rw [hsome]
    rw [← hval]
    exact List.mem_map_of_mem _ hm'
  · intro hb
    have hformWf :
        processScenariosPure wfCfg modes results pipelineRec claudeRec t
          = modes.map (fun m =>
              if m = "balanced" then
                pipelineBalancedRun (lookupResult results "balanced")
                  pipelineRec t
              else
                match lookupResult results m with
                | some r => standardCompleted m r (claudeRec m) t
                | none => runningRun m) := rfl
    refine ⟨?_, rfl, rfl⟩
    rw [hformWf]
    have hval : (fun m =>
        if m = "balanced" then
          pipelineBalancedRun (lookupResult results "balanced") pipelineRec t
        else
          match lookupResult results m with
          | some r => standardCompleted m r (claudeRec m) t
          | none => runningRun m) m = runningRun m := by
      show (if m = "balanced" then
          pipelineBalancedRun (lookupResult results "balanced") pipelineRec t
        else
          match lookupResult results m with
          | some r => standardCompleted m r (claudeRec m) t
          | none => runningRun m) = runningRun m
      rw [if_neg hb, hnone]
    rw [← hval]
    exact List.mem_map_of_mem _ hm
  · intro hcore s hsmem
    have hC : ((lookupResult results "conservative").isSome
        && (lookupResult results "balanced").isSome
        && (lookupResult results "aggressive").isSome) = false := by
      rcases hcore with h | h | h <;> subst h <;> simp [hnone]
    have hformDb :
        processScenariosPure dbCfg modes results pipelineRec claudeRec t
          = batchCatch debateTypeErrorMsg t (modes.map runningRun) := by
      unfold processScenariosPure
      rw [if_neg (by decide), if_pos (by decide), if_neg (by simp [hC])]
    rw [hformDb] at hsmem
    obtain ⟨s0, hs0, rfl⟩ := List.mem_map.1 hsmem
    exact ⟨rfl, rfl⟩
  · intro h1 h2 h3 hb
    have hC : ((lookupResult results "conservative").isSome
        && (lookupResult results "balanced").isSome
        && (lookupResult results "aggressive").isSome) = true := by
      simp [h1, h2, h3]
    have hformDb :
        processScenariosPure dbCfg modes results pipelineRec claudeRec t
          = modes.map (fun m =>
              if m = "balanced" then
                pipelineBalancedRun (lookupResult results "balanced")
                  pipelineRec t
              else
                match lookupResult results m with
                | some r => standardCompleted m r (claudeRec m) t
                | none => runningRun m) := by
      unfold processScenariosPure
      rw [if_neg (by decide), if_pos (by decide), if_pos hC]
    rw [hformDb]
    have hval : (fun m =>
        if m = "balanced" then
          pipelineBalancedRun (lookupResult results "balanced") pipelineRec t
        else
          match lookupResult results m with
          | some r => standardCompleted m r (claudeRec m) t
          | none => runningRun m) m = runningRun m := by
      show (if m = "balanced" then
          pipelineBalancedRun (lookupResult results "balanced") pipelineRec t
        else
          match lookupResult results m with
          | some r => standardCompleted m r (claudeRec m) t
          | none => runningRun m) = runningRun m
      rw [if_neg hb, hnone]
    rw [← hval]
    exact List.mem_map_of_mem _ hm

/-- Witness for `C3_amended_missing_result`: a batch of two modes where the
conservative result is missing and the balanced one present — under the
standard branch the conservative run fails directly, under the workflow
branch it stays Running, and under the debate branch the whole batch is
marked Failed. -/
theorem C3_amended_missing_result_witness :
    ("conservative" ∈ ["conservative", "balanced"])
    ∧ lookupResult [("balanced", simSample)] "conservative" = none
    ∧ missingResultFailed "conservative" 2 ∈
        processScenariosPure stdCfg ["conservative", "balanced"]
          [("balanced", simSample)] "p" (fun _ => "rec") 2
    ∧ runningRun "conservative" ∈
        processScenariosPure wfCfg ["conservative", "balanced"]
          [("balanced", simSample)] "p" (fun _ => "rec") 2
    ∧ (∀ s ∈ processScenariosPure dbCfg ["conservative", "balanced"]
          [("balanced", simSample)] "p" (fun _ => "rec") 2,
        s.status = .failed ∧ s.completed_at = some 2) :=
  ⟨List.mem_cons_self _ _, rfl,
    (C3_amended_missing_result ["conservative", "balanced"]
      [("balanced", simSample)] "p" (fun _ => "rec") 2 "conservative"
      (List.mem_cons_self _ _) rfl).1.1,
    ((C3_amended_missing_result ["conservative", "balanced"]
      [("balanced", simSample)] "p" (fun _ => "rec") 2 "conservative"
      (List.mem_cons_self _ _) rfl).2.2.1 (by decide)).1,
    (C3_amended_missing_result ["conservative", "balanced"]
      [("balanced", simSample)] "p" (fun _ => "rec") 2 "conservative"
      (List.mem_cons_self _ _) rfl).2.2.2.1 (Or.inl rfl)⟩

/-- C4 counterexample: the batch-level catch handler rewrites a run that had
already reached the terminal state Completed to Failed — terminal states are
not final across a batch-level exception. -/
theorem C4_counterexample :
    ((batchCatch "Persistence outage" 9
        [standardCompleted "balanced" simSample "rec" 5]).map
      (fun s => (s.status, s.completed_at))) = [(.failed, some 9)]
    ∧ (standardCompleted "balanced" simSample "rec" 5).status = .completed :=
  ⟨rfl, rfl⟩

/-- C4 (amended): the batch-level catch marks every run of the batch Failed
with the captured error text and a fresh completion time — including runs
already in a terminal state — so terminal states are final only in the
absence of a batch-level exception. -/
theorem C4_amended_batch_catch (msg : String) (t : Nat) (runs : List RunState)
    (s : RunState) (hs : s ∈ batchCatch msg t runs) :
    s.status = .failed ∧ s.error_message = some msg ∧ s.completed_at = some t
    ∧ ∃ s₀ ∈ runs, s = applyBatchFail msg t s₀ := by
  obtain ⟨s0, hs0, rfl⟩ := List.mem_map.1 hs
  exact ⟨rfl, rfl, rfl, s0, hs0, rfl⟩

/-- Witness for `C4_amended_batch_catch` on a one-run batch whose run had
already completed. -/
theorem C4_amended_batch_catch_witness :
    (applyBatchFail "db down" 9 (standardCompleted "balanced" simSample "r" 5) ∈
        batchCatch "db down" 9 [standardCompleted "balanced" simSample "r" 5])
    ∧ (applyBatchFail "db down" 9
        (standardCompleted "balanced" simSample "r" 5)).status = .failed :=
  ⟨List.mem_map_of_mem _ (List.mem_singleton.mpr rfl),
    (C4_amended_batch_catch "db down" 9
      [standardCompleted "balanced" simSample "r" 5]
      (applyBatchFail "db down" 9 (standardCompleted "balanced" simSample "r" 5))
      (List.mem_map_of_mem _ (List.mem_singleton.mpr rfl))).1⟩

end SmartTreasury
